import Mathlib

/-!
Shallow embedding of `demo_all_px_templates.py`: a script that iterates over
the plotly express plot-kinds, builds one shared color template, renders a
with/without-template figure pair per eligible kind, and assembles an HTML
report of base64-embedded images.

External collaborators (the plotly library's figure construction and image
export, the datasets) are modelled by an `Env` record of fallible functions
and by opaque dataset tokens; everything the script itself computes (tables,
eligibility checks, control flow, the report assembly) is embedded directly
from the source.
-/

namespace PxDemo

/-- A trace object as built inside `create_comprehensive_template`:
`constructor(marker=dict(color=color))`, i.e. only `marker.color` is set. -/
structure TraceObj where
  traceType : String
  markerColor : Option String
deriving DecidableEq

/-- A plotly template: the library default `pio.templates["plotly"]`, a
custom template whose `data` attribute maps trace types to trace lists, or
the result of `pio.templates.merge_templates` (kept symbolic: merging is
performed by the external library). -/
inductive Template where
  | default_
  | custom (data : List (String × List TraceObj))
  | merged (a b : Template)
deriving DecidableEq

/-- A value appearing in an example-argument dictionary of `get_plot_args`.
Dataframes supplied by the external data library are opaque tokens named by
the Python expression that produced them; `randArray r` stands for the
`np.random.rand(10, 10)` array drawn from the random source `r`. -/
inductive Value where
  | s (x : String)
  | b (x : Bool)
  | natList (xs : List Nat)
  | strList (xs : List String)
  | pathList (xs : List String)
  | frame (python : String)
  | noneV
  | randArray (r : Nat)
  | tmpl (t : Template)
deriving DecidableEq

end PxDemo

namespace PxDemo

/-- The second component of a PX_FUNCTIONS entry: either a
`plotly.graph_objects` trace class (identified by its trace-type name) or a
plain sentinel string such as `"timeline"`. -/
inductive Ctor where
  | cls (traceType : String)
  | str (s : String)
deriving DecidableEq

/-- A figure returned by a px plotting function, as produced by the
environment's `px_fn`; it records nothing the script inspects. -/
structure Fig where
  kind : String
  args : List (String × Value)
deriving DecidableEq

/-- The environment of external library calls: `px_fn name args` models
calling the px plotting function registered under `name` with keyword
arguments `args` (an exception becomes `.error text`), and `write_image fig`
models `fig.write_image(...)` returning PNG bytes. -/
structure Env where
  px_fn : String → List (String × Value) → Except String Fig
  write_image : Fig → Except String (List Nat)

/-- PX_FUNCTIONS: map of all px functions to their constructors and trace
types.  The px function itself is identified by the entry's key (the
environment dispatches on it), exactly as in the source table. -/
def PX_FUNCTIONS : List (String × Ctor × String) := [
  ("scatter", Ctor.cls "scatter", "scatter"),
  ("line", Ctor.cls "scatter", "scatter"),
  ("area", Ctor.cls "scatter", "scatter"),
  ("bar", Ctor.cls "bar", "bar"),
  ("timeline", Ctor.str "timeline", "bar"),
  ("histogram", Ctor.cls "histogram", "histogram"),
  ("ecdf", Ctor.cls "scatter", "scatter"),
  ("violin", Ctor.cls "violin", "violin"),
  ("box", Ctor.cls "box", "box"),
  ("strip", Ctor.cls "box", "box"),
  ("scatter_3d", Ctor.cls "scatter3d", "scatter3d"),
  ("line_3d", Ctor.cls "scatter3d", "scatter3d"),
  ("scatter_ternary", Ctor.cls "scatterternary", "scatterternary"),
  ("line_ternary", Ctor.cls "scatterternary", "scatterternary"),
  ("scatter_polar", Ctor.cls "scatterpolar", "scatterpolar"),
  ("line_polar", Ctor.cls "scatterpolar", "scatterpolar"),
  ("bar_polar", Ctor.cls "barpolar", "barpolar"),
  ("scatter_geo", Ctor.cls "scattergeo", "scattergeo"),
  ("line_geo", Ctor.cls "scattergeo", "scattergeo"),
  ("choropleth", Ctor.cls "choropleth", "choropleth"),
  ("scatter_map", Ctor.cls "scattermap", "scattermap"),
  ("line_map", Ctor.cls "scattermap", "scattermap"),
  ("choropleth_map", Ctor.cls "choroplethmap", "choroplethmap"),
  ("density_map", Ctor.cls "densitymap", "densitymap"),
  ("scatter_mapbox", Ctor.cls "scattermapbox", "scattermapbox"),
  ("line_mapbox", Ctor.cls "scattermapbox", "scattermapbox"),
  ("choropleth_mapbox", Ctor.cls "choroplethmapbox", "choroplethmapbox"),
  ("density_mapbox", Ctor.cls "densitymapbox", "densitymapbox"),
  ("scatter_matrix", Ctor.cls "splom", "splom"),
  ("parallel_coordinates", Ctor.cls "parcoords", "parcoords"),
  ("parallel_categories", Ctor.cls "parcats", "parcats"),
  ("density_contour", Ctor.cls "histogram2dcontour", "histogram2dcontour"),
  ("density_heatmap", Ctor.cls "histogram2d", "histogram2d"),
  ("pie", Ctor.cls "pie", "pie"),
  ("sunburst", Ctor.cls "sunburst", "sunburst"),
  ("treemap", Ctor.cls "treemap", "treemap"),
  ("icicle", Ctor.cls "icicle", "icicle"),
  ("funnel", Ctor.cls "funnel", "funnel"),
  ("funnel_area", Ctor.cls "funnelarea", "funnelarea"),
  ("imshow", Ctor.cls "image", "image")
]

/-- The three fixed template colors of `create_comprehensive_template` and
`generate_template_code_display`. -/
def template_colors : List String := ["purple", "lime", "magenta"]

/-- The `trace_constructors` dict of `create_comprehensive_template`: trace
type name to graph_objects constructor (the constructor is identified by the
trace-type name of the class it builds, e.g. `go.Scatter` by `"scatter"`). -/
def trace_constructors : List (String × String) := [
  ("scatter", "scatter"),
  ("bar", "bar"),
  ("histogram", "histogram"),
  ("box", "box"),
  ("violin", "violin"),
  ("scatter3d", "scatter3d"),
  ("scatterternary", "scatterternary"),
  ("scatterpolar", "scatterpolar"),
  ("barpolar", "barpolar"),
  ("scattergeo", "scattergeo"),
  ("scattermap", "scattermap"),
  ("funnel", "funnel"),
  ("splom", "splom")
]

/-- The loop body of `create_comprehensive_template`: for each trace type in
`trace_constructors` set `custom_template.data.<trace_type>` to the list of
one `constructor(marker=dict(color=color))` per template color; finally
merge the default template with the custom one. -/
def create_comprehensive_template : Template :=
  let default_template := Template.default_
  let custom_data :=
    trace_constructors.foldl
      (fun acc p =>
        acc ++ [(p.1,
          template_colors.foldl
            (fun trace_list color => trace_list ++ [TraceObj.mk p.2 (some color)]) [])])
      []
  Template.merged default_template (Template.custom custom_data)

/-- Modelled from the plotly graph_objects library (an external dependency of
the script): the trace types whose class accepts `marker=dict(color=...)` at
construction and whose resulting trace exposes a `marker` attribute with a
`color` property.  Pie-family traces (`pie`, `sunburst`, `treemap`, `icicle`,
`funnelarea`) have `marker.colors` but no `marker.color`, and the choropleth,
density-map, image and parallel families have no `marker` at all, so
constructing them with `marker=dict(color=...)` raises. -/
def marker_color_trace_types : List String := [
  "scatter", "bar", "histogram", "box", "violin", "scatter3d",
  "scatterternary", "scatterpolar", "barpolar", "scattergeo", "scattermap",
  "scattermapbox", "splom", "funnel", "histogram2d", "histogram2dcontour"
]

/-- Whether `Cls(marker=dict(color="red"))` succeeds for the trace class of
trace type `t` and the trace then has `marker` and `marker.color`. -/
def hasMarkerColor (t : String) : Bool := marker_color_trace_types.contains t

/-- `test_trace_supports_marker_color`: if the constructor is the sentinel
string `"timeline"` the probe trace is a `go.Bar`; a class constructor is
probed directly; any other (non-type) value returns `False`; a raised
exception also yields `False` (folded into `hasMarkerColor`). -/
def test_trace_supports_marker_color (constructor : Ctor) : Bool :=
  match constructor with
  | Ctor.str x => if x = "timeline" then hasMarkerColor "bar" else false
  | Ctor.cls t => hasMarkerColor t

/-- The `constructor_map` dict of `get_constructor_name`. -/
def constructor_map : List (String × String) := [
  ("scatter", "Scatter"),
  ("bar", "Bar"),
  ("histogram", "Histogram"),
  ("box", "Box"),
  ("violin", "Violin"),
  ("scatter3d", "Scatter3d"),
  ("scatterternary", "Scatterternary"),
  ("scatterpolar", "Scatterpolar"),
  ("barpolar", "Barpolar"),
  ("scattergeo", "Scattergeo"),
  ("scattermap", "Scattermap"),
  ("funnel", "Funnel"),
  ("splom", "Splom")
]

/-- Python `dict.get` over an association list (first match wins). -/
def dict_get (name : String) : List (String × α) → Option α
  | [] => none
  | (k, v) :: rest => if name = k then some v else dict_get name rest

/-- `get_constructor_name`: `constructor_map.get(trace_type, trace_type.capitalize())`. -/
def get_constructor_name (trace_type : String) : String :=
  match dict_get trace_type constructor_map with
  | some n => n
  | none => trace_type.capitalize

/-- `generate_template_code_display`: the code-snippet caption shown in each
HTML section. -/
def generate_template_code_display (trace_type : String) : String :=
  let constructor_name := get_constructor_name trace_type
  (template_colors.foldl
    (fun code color =>
      code ++ "    go." ++ constructor_name ++ "(marker=dict(color=\"" ++ color ++ "\")),\n")
    ("template.data." ++ trace_type ++ " = [\n")) ++ "]"

/-- Dataset `tips = px.data.tips()`. -/
def tips : Value := Value.frame "px.data.tips()"

/-- Dataset `iris = px.data.iris()`. -/
def iris : Value := Value.frame "px.data.iris()"

/-- Dataset `gapminder = px.data.gapminder().query("year == 2007")`. -/
def gapminder : Value := Value.frame "px.data.gapminder().query(year == 2007)"

/-- Dataset `df_line = px.data.gapminder().query("country in [Canada, Botswana, Brazil]")`. -/
def df_line : Value := Value.frame "px.data.gapminder().query(country in [Canada, Botswana, Brazil])"

/-- Dataset `wind = px.data.wind()`. -/
def wind : Value := Value.frame "px.data.wind()"

/-- Dataset `election = px.data.election()`. -/
def election : Value := Value.frame "px.data.election()"

/-- The inline `pd.DataFrame` of Job A/B/C rows built for the timeline entry. -/
def timeline_frame : Value :=
  Value.frame "pd.DataFrame(Task=Job A/B/C, Start, Finish, Resource=Alex/Alex/Max)"

/-- The inline `pd.concat` of the Montreal and Toronto funnel-stage frames. -/
def funnel_frame : Value :=
  Value.frame "pd.concat(Montreal stages frame, Toronto stages frame)"

/-- The `path` argument `[px.Constant("all"), sex, day, time]` shared by the
sunburst, treemap and icicle entries. -/
def hierarchy_path : Value := Value.pathList ["px.Constant(all)", "sex", "day", "time"]

/-- The first 39 entries of the `args_map` dict built inside
`get_plot_args`, in source order.  An entry whose Python value is the
explicit unavailable marker `None` is `none`; a dict entry is `some` of its
keyword-argument list. -/
def args_map_front : List (String × Option (List (String × Value))) := [
  ("scatter", some [("data_frame", iris), ("x", Value.s "sepal_width"),
    ("y", Value.s "sepal_length"), ("color", Value.s "species")]),
  ("line", some [("data_frame", df_line), ("x", Value.s "year"),
    ("y", Value.s "lifeExp"), ("color", Value.s "country")]),
  ("area", some [("data_frame", df_line), ("x", Value.s "year"),
    ("y", Value.s "lifeExp"), ("color", Value.s "country")]),
  ("bar", some [("data_frame", tips), ("x", Value.s "day"),
    ("y", Value.s "total_bill"), ("color", Value.s "sex")]),
  ("timeline", some [("data_frame", timeline_frame), ("x_start", Value.s "Start"),
    ("x_end", Value.s "Finish"), ("y", Value.s "Resource"), ("color", Value.s "Resource")]),
  ("histogram", some [("data_frame", tips), ("x", Value.s "total_bill"),
    ("color", Value.s "sex")]),
  ("ecdf", some [("data_frame", tips), ("x", Value.s "total_bill"),
    ("color", Value.s "sex")]),
  ("violin", some [("data_frame", tips), ("x", Value.s "day"),
    ("y", Value.s "total_bill"), ("color", Value.s "sex")]),
  ("box", some [("data_frame", tips), ("x", Value.s "day"),
    ("y", Value.s "total_bill"), ("color", Value.s "sex")]),
  ("strip", some [("data_frame", tips), ("x", Value.s "day"),
    ("y", Value.s "total_bill"), ("color", Value.s "sex")]),
  ("scatter_3d", some [("data_frame", iris), ("x", Value.s "sepal_length"),
    ("y", Value.s "sepal_width"), ("z", Value.s "petal_length"), ("color", Value.s "species")]),
  ("line_3d", some [("data_frame", iris), ("x", Value.s "sepal_length"),
    ("y", Value.s "sepal_width"), ("z", Value.s "petal_length"), ("color", Value.s "species")]),
  ("scatter_ternary", some [("data_frame", election), ("a", Value.s "Joly"),
    ("b", Value.s "Coderre"), ("c", Value.s "Bergeron"), ("color", Value.s "winner")]),
  ("line_ternary", some [("data_frame", election), ("a", Value.s "Joly"),
    ("b", Value.s "Coderre"), ("c", Value.s "Bergeron"), ("color", Value.s "winner")]),
  ("scatter_polar", some [("data_frame", wind), ("r", Value.s "frequency"),
    ("theta", Value.s "direction"), ("color", Value.s "strength")]),
  ("line_polar", some [("data_frame", wind), ("r", Value.s "frequency"),
    ("theta", Value.s "direction"), ("color", Value.s "strength"),
    ("line_close", Value.b true)]),
  ("bar_polar", some [("data_frame", wind), ("r", Value.s "frequency"),
    ("theta", Value.s "direction"), ("color", Value.s "strength")]),
  ("scatter_geo", none),
  ("line_geo", none),
  ("choropleth", some [("data_frame", gapminder), ("locations", Value.s "iso_alpha"),
    ("color", Value.s "lifeExp"), ("hover_name", Value.s "country")]),
  ("scatter_map", none),
  ("line_map", none),
  ("choropleth_map", some [("data_frame", gapminder), ("geojson", Value.noneV),
    ("locations", Value.s "iso_alpha"), ("color", Value.s "lifeExp")]),
  ("density_map", none),
  ("scatter_mapbox", none),
  ("line_mapbox", none),
  ("choropleth_mapbox", some [("data_frame", gapminder), ("geojson", Value.noneV),
    ("locations", Value.s "iso_alpha"), ("color", Value.s "lifeExp")]),
  ("density_mapbox", none),
  ("scatter_matrix", some [("data_frame", iris),
    ("dimensions", Value.strList ["sepal_width", "sepal_length", "petal_width"]),
    ("color", Value.s "species")]),
  ("parallel_coordinates", some [("data_frame", iris),
    ("dimensions", Value.strList ["sepal_width", "sepal_length", "petal_width"]),
    ("color", Value.s "species")]),
  ("parallel_categories", some [("data_frame", Value.frame "px.data.tips().head(20)"),
    ("dimensions", Value.strList ["sex", "smoker", "day"]), ("color", Value.s "time")]),
  ("density_contour", some [("data_frame", tips), ("x", Value.s "total_bill"),
    ("y", Value.s "tip"), ("color", Value.s "sex")]),
  ("density_heatmap", some [("data_frame", tips), ("x", Value.s "total_bill"),
    ("y", Value.s "tip")]),
  ("pie", some [("data_frame", tips), ("names", Value.s "day"),
    ("values", Value.s "total_bill")]),
  ("sunburst", some [("data_frame", tips), ("path", hierarchy_path),
    ("values", Value.s "total_bill"), ("color", Value.s "day")]),
  ("treemap", some [("data_frame", tips), ("path", hierarchy_path),
    ("values", Value.s "total_bill"), ("color", Value.s "day")]),
  ("icicle", some [("data_frame", tips), ("path", hierarchy_path),
    ("values", Value.s "total_bill"), ("color", Value.s "day")]),
  ("funnel", some [("data_frame", funnel_frame), ("x", Value.s "number"),
    ("y", Value.s "stage"), ("color", Value.s "office")]),
  ("funnel_area", some [("names", Value.strList
      ["The 1st", "The 2nd", "The 3rd", "The 4th", "The 5th"]),
    ("values", Value.natList [5, 4, 3, 2, 1])])
]

/-- The full `args_map` dict: the 39 fixed entries followed by its final
entry, `"imshow": {"img": np.random.rand(10, 10)}` — the only value drawn
from the random source `r`. -/
def args_map (r : Nat) : List (String × Option (List (String × Value))) :=
  args_map_front ++ [("imshow", some [("img", Value.randArray r)])]

/-- `get_plot_args`: `args_map.get(px_name, {})`.  The Python result space is
`dict / None / {}`; here `none` is Python `None` and `some []` the empty-dict
default for an unknown key.  (The `px_fn` parameter of the source is unused
by its body and dropped.) -/
def get_plot_args (r : Nat) (px_name : String) : Option (List (String × Value)) :=
  match dict_get px_name (args_map r) with
  | some entry => entry
  | none => some []

/-- The `no_discrete` set of `can_use_discrete_colors`: px functions that do
not support discrete colors. -/
def no_discrete : List String := [
  "density_heatmap", "density_map", "density_mapbox", "choropleth",
  "choropleth_map", "choropleth_mapbox", "imshow", "parallel_coordinates",
  "parallel_categories"
]

/-- `can_use_discrete_colors`: first the static exclusion set, then the
marker-color probe; returns `(can_use, reason)`.  (The `px_fn` and
`trace_type` parameters of the source are unused by its body; `trace_type`
is kept for signature fidelity.) -/
def can_use_discrete_colors (px_name : String) (constructor : Ctor)
    (_trace_type : String) : Bool × Option String :=
  if no_discrete.contains px_name then
    (false, some "Does not support discrete colors")
  else if !(test_trace_supports_marker_color constructor) then
    (false, some "Trace type does not have marker.color attribute")
  else
    (true, none)

/-- `create_plot_comparison`: look up the example arguments, skip on the
explicit `None` marker or the empty dict, otherwise build the figure without
the template and then with it (`args.copy()` plus `args["template"]`); any
exception from the px calls is caught and returned as the second component.
(The unused `constructor` and `trace_type` parameters of the source are
dropped; `r` is the ambient random source threaded into `get_plot_args`.) -/
def create_plot_comparison (env : Env) (r : Nat) (px_name : String)
    (template : Template) : Option (Fig × Fig) × Option String :=
  match get_plot_args r px_name with
  | none => (none, some ("No test data configured for " ++ px_name))
  | some args =>
    if args.isEmpty then
      (none, some ("Missing required arguments for " ++ px_name))
    else
      match env.px_fn px_name args with
      | Except.error e => (none, some e)
      | Except.ok fig_no_template =>
        match env.px_fn px_name (args ++ [("template", Value.tmpl template)]) with
        | Except.error e => (none, some e)
        | Except.ok fig_with_template =>
          (some (fig_no_template, fig_with_template), none)

/-- The base64 alphabet used by `base64.b64encode`. -/
def b64chars : List Char :=
  "ABCDEFGHIJKLMNOPQRSTUVWXYZabcdefghijklmnopqrstuvwxyz0123456789+/".toList

/-- The base64 digit of a 6-bit value. -/
def b64char (n : Nat) : Char := b64chars.getD n 'A'

/-- Standard base64 of a byte list, three bytes to four digits with `=`
padding, as character list. -/
def b64encodeChars : List Nat → List Char
  | [] => []
  | [b1] => [b64char (b1 / 4), b64char (b1 % 4 * 16), '=', '=']
  | [b1, b2] => [b64char (b1 / 4), b64char (b1 % 4 * 16 + b2 / 16),
      b64char (b2 % 16 * 4), '=']
  | b1 :: b2 :: b3 :: rest =>
    b64char (b1 / 4) :: b64char (b1 % 4 * 16 + b2 / 16) ::
      b64char (b2 % 16 * 4 + b3 / 64) :: b64char (b3 % 64) :: b64encodeChars rest

/-- `base64.b64encode(...).decode("utf-8")` over PNG bytes. -/
def b64encode (bytes : List Nat) : String := String.mk (b64encodeChars bytes)

/-- One rendered comparison: `(px_name, (fig_no, fig_with), trace_type)`, an
element of the `works_with_template` list accumulated by `main`. -/
abbrev Work := String × (Fig × Fig) × String

/-- One plot section of the HTML report: the plot-kind, the two embedded
base64 image strings and the code-snippet caption. -/
structure ReportSection where
  px_name : String
  img_base64_no : String
  img_base64_with : String
  template_code : String
deriving DecidableEq

/-- The body of the per-item `try` block of `generate_html_content`: export
the without-template figure, then the with-template figure; a raised
exception yields no section and the warning console line, success yields the
section and the success console line. -/
def render_item (env : Env) (item : Work) : Option ReportSection × String :=
  match env.write_image item.2.1.1 with
  | Except.error e =>
    (none, "    Warning: Could not generate images for " ++ item.1 ++ ": " ++ e)
  | Except.ok bytes_no =>
    match env.write_image item.2.1.2 with
    | Except.error e =>
      (none, "    Warning: Could not generate images for " ++ item.1 ++ ": " ++ e)
    | Except.ok bytes_with =>
      (some { px_name := item.1,
              img_base64_no := b64encode bytes_no,
              img_base64_with := b64encode bytes_with,
              template_code := generate_template_code_display item.2.2 },
       "    Generated embedded images for " ++ item.1)

/-- The per-item loop of `generate_html_content`: the produced plot sections
in order, and the console lines it prints (exactly one per item: either the
success line or the caught-exception warning). -/
def generate_html_sections (env : Env) (works : List Work) :
    List ReportSection × List String :=
  (works.filterMap (fun item => (render_item env item).1),
   works.map (fun item => (render_item env item).2))

/-- `px_name.replace("_", " ").title()`. -/
def display_title (px_name : String) : String :=
  String.intercalate " " ((px_name.splitOn "_").map String.capitalize)

/-- The HTML of one plot section, as interpolated by `generate_html_content`. -/
def section_html (sec : ReportSection) : String :=
  "
        <div class=\"plot-section\">
            <h3>" ++ display_title sec.px_name ++ "</h3>
            <div class=\"plot-container\">
                <div class=\"plot-box\">
                    <h3>Without Template</h3>
                    <img src=\"data:image/png;base64," ++ sec.img_base64_no
    ++ "\" alt=\"" ++ sec.px_name ++ " without template\">
                </div>
                <div class=\"plot-box\">
                    <h3>With Template</h3>
                    <img src=\"data:image/png;base64," ++ sec.img_base64_with
    ++ "\" alt=\"" ++ sec.px_name ++ " with template\">
                    <pre style=\"margin-top: 15px; padding: 10px; background-color: #f9f9f9; border-radius: 4px; font-size: 12px; overflow-x: auto; text-align: left;\"><code>"
    ++ sec.template_code ++ "</code></pre>
                </div>
            </div>
        </div>
        "

/-- The fixed HTML prologue of `generate_html_content` (CSS braces written as
hex escapes). -/
def html_head : String :=
  "
<!DOCTYPE html>
<html>
<head>
    <title>Plotly Express Template Color Demonstration</title>
    <style>
        body \x7b
            font-family: Arial, sans-serif;
            max-width: 1400px;
            margin: 0 auto;
            padding: 20px;
            background-color: #f5f5f5;
        \x7d
        h1 \x7b
            color: #333;
            text-align: center;
        \x7d
        .plot-section \x7b
            background-color: white;
            padding: 20px;
            margin-bottom: 20px;
            border-radius: 5px;
        \x7d
        .plot-container \x7b
            display: flex;
            gap: 20px;
            margin-top: 15px;
        \x7d
        .plot-box \x7b
            flex: 1;
            text-align: center;
        \x7d
        .plot-box h3 \x7b
            margin-top: 0;
            color: #666;
        \x7d
        img \x7b
            max-width: 100%;
            height: auto;
        \x7d
        pre \x7b
            margin-top: 15px;
            padding: 10px;
            background-color: #f9f9f9;
            border-radius: 4px;
            font-size: 12px;
            overflow-x: auto;
        \x7d
        code \x7b
            font-family: \x27Courier New\x27, monospace;
        \x7d
    </style>
</head>
<body>
    <h1>Plotly Express Template Color Demonstration</h1>
"

/-- The fixed HTML epilogue of `generate_html_content`. -/
def html_foot : String :=
  "
    </body>
    </html>
    "

/-- `generate_html_content`: the prologue, one section per successfully
exported item, and the epilogue. -/
def generate_html_content (env : Env) (works : List Work) : String :=
  html_head
    ++ String.join ((generate_html_sections env works).1.map section_html)
    ++ html_foot

/-- One iteration of the analysis loop of `main`: check
`can_use_discrete_colors`, then build the comparison and keep the item only
when a figure pair came back. -/
def process_kind (env : Env) (r : Nat) (tmpl : Template)
    (entry : String × Ctor × String) : Option Work :=
  if (can_use_discrete_colors entry.1 entry.2.1 entry.2.2).1 then
    match create_plot_comparison env r entry.1 tmpl with
    | (some result, _) => some (entry.1, result, entry.2.2)
    | (none, _) => none
  else none

/-- The `works_with_template` list accumulated by `main`'s loop over
`PX_FUNCTIONS` (the loop appends at most one item per table entry). -/
def main_works (env : Env) (r : Nat) : List Work :=
  PX_FUNCTIONS.filterMap (process_kind env r create_comprehensive_template)

/-- The plot sections of the final report produced by `main`. -/
def report_sections (env : Env) (r : Nat) : List ReportSection :=
  (generate_html_sections env (main_works env r)).1

/-- The plot-kind names that own a section in the final report. -/
def sectionNames (env : Env) (r : Nat) : List String :=
  (report_sections env r).map (fun sec => sec.px_name)

/-- The skip reason `main`'s loop holds for a table entry: the `reason`
variable when `can_use_discrete_colors` vetoes it, otherwise the `error`
variable returned by `create_plot_comparison` (both are bound by `main` and
then dropped unread). -/
def skip_reason (env : Env) (r : Nat) (entry : String × Ctor × String) :
    Option String :=
  let cu := can_use_discrete_colors entry.1 entry.2.1 entry.2.2
  if cu.1 then
    (create_plot_comparison env r entry.1 create_comprehensive_template).2
  else cu.2

/-- A row of 80 `=` as printed by the banners of `main`. -/
def eq_bar : String := String.mk (List.replicate 80 '=')

/-- A row of 80 `-` as printed by `main`. -/
def dash_bar : String := String.mk (List.replicate 80 '-')

/-- Python `f"{s:30}"`: left-justify to width 30. -/
def padTo (w : Nat) (s : String) : String :=
  s ++ String.mk (List.replicate (w - s.length) ' ')

/-- Every console line printed by a run of `main`, in order: the banners, one
success line per kept item of the analysis loop, the per-item lines of
`generate_html_content`, and the closing summary. -/
def main_console (env : Env) (r : Nat) : List String :=
  [eq_bar,
   "Comprehensive Plotly Express Template Color Demonstration",
   eq_bar,
   "\nAnalyzing all Plotly Express functions...",
   dash_bar]
  ++ (main_works env r).map (fun w =>
       "✓ " ++ padTo 30 w.1 ++ " - Works (uses template.data." ++ w.2.2 ++ ")")
  ++ ["\n" ++ eq_bar, "Creating HTML file..."]
  ++ (generate_html_sections env (main_works env r)).2
  ++ ["  ✓ Created all_px_template_demo.html",
      "\nGenerated " ++ toString (main_works env r).length ++ " working comparisons",
      "\n" ++ eq_bar,
      "Complete! Open all_px_template_demo.html in a browser to see all comparisons.",
      eq_bar]

/-- The eight signature bytes that open every valid PNG stream. -/
def pngBytes : List Nat := [137, 80, 78, 71, 13, 10, 26, 10]

/-- An environment in which every px call returns a figure recording its
inputs and every export returns the PNG signature bytes. -/
def envOk : Env where
  px_fn := fun kind args => Except.ok { kind := kind, args := args }
  write_image := fun _ => Except.ok pngBytes

/-- An environment in which every px plotting call raises `boom`. -/
def envAllBoom : Env where
  px_fn := fun _ _ => Except.error "boom"
  write_image := fun _ => Except.ok pngBytes

/-- An environment in which figure construction succeeds but every image
export raises `boom`. -/
def envExpFail : Env where
  px_fn := fun kind args => Except.ok { kind := kind, args := args }
  write_image := fun _ => Except.error "boom"

/-- Whether `pat` occurs as a contiguous run of characters of `s`. -/
def hasInfixChars (pat : List Char) : List Char → Bool
  | [] => pat.isEmpty
  | c :: rest => pat.isPrefixOf (c :: rest) || hasInfixChars pat rest

/-- Whether `pat` occurs as a substring of `s`. -/
def containsSubstr (pat s : String) : Bool := hasInfixChars pat.toList s.toList

/-- `create_plot_comparison` always returns one of the two shapes: a figure
pair with no message, or no figure pair with a message. -/
theorem cpc_shape (env : Env) (r : Nat) (px_name : String) (tmpl : Template) :
    (∃ p, create_plot_comparison env r px_name tmpl = (some p, none)) ∨
    (∃ e, create_plot_comparison env r px_name tmpl = (none, some e)) := by
  unfold create_plot_comparison
  cases get_plot_args r px_name with
  | none => exact Or.inr ⟨_, rfl⟩
  | some args =>
    by_cases h : args.isEmpty
    · simp only [h, if_true]
      exact Or.inr ⟨_, rfl⟩
    · simp only [h, if_false, Bool.false_eq_true]
      cases env.px_fn px_name args with
      | error e => exact Or.inr ⟨e, rfl⟩
      | ok f1 =>
        cases env.px_fn px_name (args ++ [("template", Value.tmpl tmpl)]) with
        | error e => exact Or.inr ⟨e, rfl⟩
        | ok f2 => exact Or.inl ⟨(f1, f2), rfl⟩

/-- Unfolding a successful `process_kind`: the eligibility test passed, the
comparison succeeded, and the kept item carries the entry's name and trace
type. -/
theorem process_kind_some (env : Env) (r : Nat) (tmpl : Template)
    (entry : String × Ctor × String) (w : Work)
    (h : process_kind env r tmpl entry = some w) :
    (can_use_discrete_colors entry.1 entry.2.1 entry.2.2).1 = true ∧
    ∃ figs, create_plot_comparison env r entry.1 tmpl = (some figs, none) ∧
      w = (entry.1, figs, entry.2.2) := by
  unfold process_kind at h
  split at h
  case isTrue hcu =>
    rcases cpc_shape env r entry.1 tmpl with ⟨p, hp⟩ | ⟨e, he⟩
    · rw [hp] at h
      simp only [Option.some.injEq] at h
      exact ⟨hcu, p, hp, h.symm⟩
    · rw [he] at h
      simp at h
  case isFalse hcu => simp at h

/-- Membership in `works_with_template`: each kept item comes from a table
entry whose eligibility test passed and whose comparison returned a figure
pair. -/
theorem mem_main_works (env : Env) (r : Nat) (w : Work)
    (h : w ∈ main_works env r) :
    ∃ ctor, (w.1, ctor, w.2.2) ∈ PX_FUNCTIONS ∧
      (can_use_discrete_colors w.1 ctor w.2.2).1 = true ∧
      create_plot_comparison env r w.1 create_comprehensive_template
        = (some w.2.1, none) := by
  rw [main_works, List.mem_filterMap] at h
  obtain ⟨entry, hmem, hpk⟩ := h
  obtain ⟨hcu, figs, hcpc, hw⟩ := process_kind_some _ _ _ _ _ hpk
  subst hw
  exact ⟨entry.2.1, hmem, hcu, hcpc⟩

/-- Unfolding a successful `render_item`: both exports returned bytes and
the section embeds their base64 encodings under the item's name. -/
theorem render_item_some (env : Env) (item : Work) (sec : ReportSection)
    (h : (render_item env item).1 = some sec) :
    sec.px_name = item.1 ∧
    ∃ b1 b2, env.write_image item.2.1.1 = Except.ok b1 ∧
      env.write_image item.2.1.2 = Except.ok b2 ∧
      sec.img_base64_no = b64encode b1 ∧ sec.img_base64_with = b64encode b2 := by
  unfold render_item at h
  cases h1 : env.write_image item.2.1.1 with
  | error e => rw [h1] at h; simp at h
  | ok b1 =>
    rw [h1] at h
    cases h2 : env.write_image item.2.1.2 with
    | error e => rw [h2] at h; simp at h
    | ok b2 =>
      rw [h2] at h
      simp only [Option.some.injEq] at h
      subst h
      exact ⟨rfl, b1, b2, rfl, rfl, rfl, rfl⟩

/-- Membership in the report sections of a run: each section comes from a
kept item both of whose exports succeeded. -/
theorem mem_report_sections (env : Env) (r : Nat) (sec : ReportSection)
    (h : sec ∈ report_sections env r) :
    ∃ w ∈ main_works env r, (render_item env w).1 = some sec ∧
      sec.px_name = w.1 ∧
      ∃ b1 b2, env.write_image w.2.1.1 = Except.ok b1 ∧
        env.write_image w.2.1.2 = Except.ok b2 ∧
        sec.img_base64_no = b64encode b1 ∧ sec.img_base64_with = b64encode b2 := by
  rw [report_sections, generate_html_sections] at h
  simp only [List.mem_filterMap] at h
  obtain ⟨w, hw, hri⟩ := h
  obtain ⟨hname, b1, b2, h1, h2, e1, e2⟩ := render_item_some env w sec hri
  exact ⟨w, hw, hri, hname, b1, b2, h1, h2, e1, e2⟩

/-- Base64 of a nonempty byte list is a nonempty character list. -/
theorem b64encodeChars_ne_nil (l : List Nat) (h : l ≠ []) :
    b64encodeChars l ≠ [] := by
  match l with
  | [] => exact absurd rfl h
  | [b1] => simp [b64encodeChars]
  | [b1, b2] => simp [b64encodeChars]
  | b1 :: b2 :: b3 :: rest => simp [b64encodeChars]

/-- Base64 of a nonempty byte list is a nonempty string. -/
theorem b64encode_ne_empty (l : List Nat) (h : l ≠ []) : b64encode l ≠ "" := by
  intro he
  apply b64encodeChars_ne_nil l h
  have hd := congrArg String.data he
  simpa [b64encode] using hd

/-- The names of the kept items form a sublist of the table's key column. -/
theorem works_names_sublist (env : Env) (r : Nat) :
    ((main_works env r).map (fun w => w.1)).Sublist
      (PX_FUNCTIONS.map (fun e => e.1)) := by
  rw [main_works]
  induction PX_FUNCTIONS with
  | nil => simp
  | cons e L ih =>
    rw [List.filterMap_cons]
    cases hp : process_kind env r create_comprehensive_template e with
    | none => exact ih.cons e.1
    | some w =>
      obtain ⟨_, figs, _, hw⟩ := process_kind_some _ _ _ _ _ hp
      subst hw
      exact ih.cons₂ e.1

/-- No plot-kind name repeats among the kept items. -/
theorem works_names_nodup (env : Env) (r : Nat) :
    ((main_works env r).map (fun w => w.1)).Nodup :=
  (works_names_sublist env r).nodup (by decide)

/-- A plot-kind whose comparison returned no figure pair owns no section in
the final report. -/
theorem not_sect_of_cpc_fst_none (env : Env) (r : Nat) (name : String)
    (h : (create_plot_comparison env r name create_comprehensive_template).1
      = none) :
    name ∉ sectionNames env r := by
  intro hmem
  rw [sectionNames, List.mem_map] at hmem
  obtain ⟨sec, hsec, hn⟩ := hmem
  obtain ⟨w, hw, -, hname, -⟩ := mem_report_sections env r sec hsec
  obtain ⟨ctor, -, -, hcpc⟩ := mem_main_works env r w hw
  rw [← hn, hname] at h
  rw [hcpc] at h
  simp at h

/-- A kept item whose `render_item` produced no section owns no section in
the final report (names of kept items are distinct). -/
theorem not_sect_of_render_none (env : Env) (r : Nat) (item : Work)
    (hitem : item ∈ main_works env r)
    (h : (render_item env item).1 = none) :
    item.1 ∉ sectionNames env r := by
  intro hmem
  rw [sectionNames, List.mem_map] at hmem
  obtain ⟨sec, hsec, hn⟩ := hmem
  obtain ⟨w, hw, hri, hname, -⟩ := mem_report_sections env r sec hsec
  have heq : w = item := by
    refine List.inj_on_of_nodup_map (works_names_nodup env r) hw hitem ?_
    rw [← hname, hn]
  rw [heq, h] at hri
  exact Option.noConfusion hri

/-- A `dict_get` over an appended association list tries the front first. -/
theorem dict_get_append (name : String) (l1 l2 : List (String × α)) :
    dict_get name (l1 ++ l2)
      = match dict_get name l1 with
        | some v => some v
        | none => dict_get name l2 := by
  induction l1 with
  | nil => simp [dict_get]
  | cons kv l ih =>
    simp only [List.cons_append, dict_get]
    split_ifs <;> simp [ih]

/-- The `args_map` lookup ignores the random source except at the `imshow`
key. -/
theorem dict_get_args_map_indep (r1 r2 : Nat) (name : String)
    (h : name ≠ "imshow") :
    dict_get name (args_map r1) = dict_get name (args_map r2) := by
  unfold args_map
  rw [dict_get_append, dict_get_append]
  cases hfront : dict_get name args_map_front with
  | some v => rfl
  | none => simp [dict_get, h]

/-- `get_plot_args` ignores the random source except at the `imshow` key. -/
theorem get_plot_args_indep (r1 r2 : Nat) (name : String)
    (h : name ≠ "imshow") :
    get_plot_args r1 name = get_plot_args r2 name := by
  unfold get_plot_args
  rw [dict_get_args_map_indep r1 r2 name h]

/-- `create_plot_comparison` ignores the random source except for `imshow`. -/
theorem cpc_indep (env : Env) (r1 r2 : Nat) (name : String) (tmpl : Template)
    (h : name ≠ "imshow") :
    create_plot_comparison env r1 name tmpl
      = create_plot_comparison env r2 name tmpl := by
  unfold create_plot_comparison
  rw [get_plot_args_indep r1 r2 name h]

/-- One analysis-loop step ignores the random source whenever the entry is
not named `imshow` or fails the eligibility test. -/
theorem process_kind_indep (env : Env) (r1 r2 : Nat) (tmpl : Template)
    (entry : String × Ctor × String)
    (h : entry.1 ≠ "imshow"
      ∨ (can_use_discrete_colors entry.1 entry.2.1 entry.2.2).1 = false) :
    process_kind env r1 tmpl entry = process_kind env r2 tmpl entry := by
  obtain ⟨name, ctor, tt⟩ := entry
  rcases h with h | h
  · unfold process_kind
    rw [cpc_indep env r1 r2 name tmpl h]
  · unfold process_kind
    simp only at h
    rw [h]
    simp

/-- The kept-item list is independent of the random source. -/
theorem main_works_indep (env : Env) (r1 r2 : Nat) :
    main_works env r1 = main_works env r2 := by
  unfold main_works
  apply List.filterMap_congr
  intro e he
  apply process_kind_indep
  have hall : PX_FUNCTIONS.all
      (fun e => e.1 != "imshow"
        || !(can_use_discrete_colors e.1 e.2.1 e.2.2).1) = true := by decide
  have h2 := List.all_eq_true.mp hall e he
  simp only [Bool.or_eq_true, bne_iff_ne, Bool.not_eq_true'] at h2
  exact h2

/-- `skip_reason` unfolded. -/
theorem skip_reason_eq (env : Env) (r : Nat) (entry : String × Ctor × String) :
    skip_reason env r entry
      = if (can_use_discrete_colors entry.1 entry.2.1 entry.2.2).1 then
          (create_plot_comparison env r entry.1 create_comprehensive_template).2
        else (can_use_discrete_colors entry.1 entry.2.1 entry.2.2).2 := rfl

/-- A failed eligibility test always carries one of the two fixed reason
strings. -/
theorem can_use_false_reason (px_name : String) (ctor : Ctor) (tt : String)
    (h : (can_use_discrete_colors px_name ctor tt).1 = false) :
    (can_use_discrete_colors px_name ctor tt).2
        = some "Does not support discrete colors"
    ∨ (can_use_discrete_colors px_name ctor tt).2
        = some "Trace type does not have marker.color attribute" := by
  unfold can_use_discrete_colors at *
  split_ifs at * <;> simp_all

/-- `imshow` is vetoed by the static exclusion set whatever its constructor
and trace type. -/
theorem can_use_imshow (ctor : Ctor) (tt : String) :
    can_use_discrete_colors "imshow" ctor tt
      = (false, some "Does not support discrete colors") := rfl

/-- A string with a nonempty head survives any right append. -/
theorem append_ne_empty_left (s t : String) (h : s.data ≠ []) :
    (s ++ t) ≠ "" := by
  intro he
  have hd := congrArg String.data he
  rw [String.data_append] at hd
  exact h (List.append_eq_nil.mp hd).1

/-- C3: every member of the static discrete-color exclusion set
(`density_heatmap`, `density_map`, `density_mapbox`, `choropleth`,
`choropleth_map`, `choropleth_mapbox`, `imshow`, `parallel_coordinates`,
`parallel_categories`) owns no section in the output report of any run. -/
theorem claim3 (env : Env) (r : Nat) (px_name : String)
    (h : px_name ∈ no_discrete) : px_name ∉ sectionNames env r := by
  intro hsec
  rw [sectionNames, List.mem_map] at hsec
  obtain ⟨sec, hsec, hn⟩ := hsec
  obtain ⟨w, hw, -, hname, -⟩ := mem_report_sections env r sec hsec
  obtain ⟨ctor, -, hcu, -⟩ := mem_main_works env r w hw
  have hwname : w.1 = px_name := by rw [← hname, hn]
  rw [hwname] at hcu
  have hc : no_discrete.contains px_name = true := by
    simpa [List.contains, List.elem_iff] using h
  unfold can_use_discrete_colors at hcu
  rw [hc] at hcu
  simp at hcu

/-- Witness for C3 at the concrete excluded kind `imshow`. -/
theorem claim3_witness :
    "imshow" ∈ no_discrete ∧ "imshow" ∉ sectionNames envOk 0 :=
  ⟨by decide, claim3 envOk 0 "imshow" (by decide)⟩

/-- C6: the report never holds more sections than the `PX_FUNCTIONS` table
has entries, and that table has 40 entries. -/
theorem claim6 (env : Env) (r : Nat) :
    (report_sections env r).length ≤ PX_FUNCTIONS.length
    ∧ PX_FUNCTIONS.length = 40 := by
  constructor
  · calc (report_sections env r).length
        ≤ (main_works env r).length := List.length_filterMap_le _ _
      _ ≤ PX_FUNCTIONS.length := List.length_filterMap_le _ _
  · rfl

/-- C7: the constructed template is the merge of the library default with a
custom template that assigns, to each of the 13 trace types of
`trace_constructors`, exactly three traces carrying only the marker colors
purple, lime, magenta in that order. -/
theorem claim7 :
    create_comprehensive_template
      = Template.merged Template.default_ (Template.custom [
          ("scatter", [⟨"scatter", some "purple"⟩, ⟨"scatter", some "lime"⟩,
            ⟨"scatter", some "magenta"⟩]),
          ("bar", [⟨"bar", some "purple"⟩, ⟨"bar", some "lime"⟩,
            ⟨"bar", some "magenta"⟩]),
          ("histogram", [⟨"histogram", some "purple"⟩, ⟨"histogram", some "lime"⟩,
            ⟨"histogram", some "magenta"⟩]),
          ("box", [⟨"box", some "purple"⟩, ⟨"box", some "lime"⟩,
            ⟨"box", some "magenta"⟩]),
          ("violin", [⟨"violin", some "purple"⟩, ⟨"violin", some "lime"⟩,
            ⟨"violin", some "magenta"⟩]),
          ("scatter3d", [⟨"scatter3d", some "purple"⟩, ⟨"scatter3d", some "lime"⟩,
            ⟨"scatter3d", some "magenta"⟩]),
          ("scatterternary", [⟨"scatterternary", some "purple"⟩,
            ⟨"scatterternary", some "lime"⟩, ⟨"scatterternary", some "magenta"⟩]),
          ("scatterpolar", [⟨"scatterpolar", some "purple"⟩,
            ⟨"scatterpolar", some "lime"⟩, ⟨"scatterpolar", some "magenta"⟩]),
          ("barpolar", [⟨"barpolar", some "purple"⟩, ⟨"barpolar", some "lime"⟩,
            ⟨"barpolar", some "magenta"⟩]),
          ("scattergeo", [⟨"scattergeo", some "purple"⟩, ⟨"scattergeo", some "lime"⟩,
            ⟨"scattergeo", some "magenta"⟩]),
          ("scattermap", [⟨"scattermap", some "purple"⟩, ⟨"scattermap", some "lime"⟩,
            ⟨"scattermap", some "magenta"⟩]),
          ("funnel", [⟨"funnel", some "purple"⟩, ⟨"funnel", some "lime"⟩,
            ⟨"funnel", some "magenta"⟩]),
          ("splom", [⟨"splom", some "purple"⟩, ⟨"splom", some "lime"⟩,
            ⟨"splom", some "magenta"⟩])])
    ∧ trace_constructors.length = 13 := ⟨rfl, rfl⟩

/-- C8: every key of the example-arguments table appears among the keys of
the `PX_FUNCTIONS` table; in fact the two key columns are identical, so the
tables are co-indexed over one identifier set, whatever the random source. -/
theorem claim8 (r : Nat) :
    ((args_map r).map (fun kv => kv.1)).all
      (fun k => (PX_FUNCTIONS.map (fun e => e.1)).contains k) = true
    ∧ (args_map r).map (fun kv => kv.1) = PX_FUNCTIONS.map (fun e => e.1) :=
  ⟨rfl, rfl⟩

/-- C9: `create_plot_comparison` (a total function: nothing escapes it)
returns exactly one of the two shapes — a figure pair with no message, or no
figure pair with a reason string — and the reason distinguishes the
explicitly-unavailable case (arguments `None`, reason `No test data
configured for ...`) from the unknown-kind case (arguments the empty dict,
reason `Missing required arguments for ...`). -/
theorem claim9 (env : Env) (r : Nat) (px_name : String) (tmpl : Template) :
    ((∃ p, create_plot_comparison env r px_name tmpl = (some p, none))
      ∨ (∃ e, create_plot_comparison env r px_name tmpl = (none, some e)))
    ∧ (get_plot_args r px_name = none →
        create_plot_comparison env r px_name tmpl
          = (none, some ("No test data configured for " ++ px_name)))
    ∧ (get_plot_args r px_name = some [] →
        create_plot_comparison env r px_name tmpl
          = (none, some ("Missing required arguments for " ++ px_name))) := by
  refine ⟨cpc_shape env r px_name tmpl, ?_, ?_⟩
  · intro h
    unfold create_plot_comparison
    rw [h]
  · intro h
    unfold create_plot_comparison
    rw [h]
    exact rfl

/-- Witness for C9 at the unavailable kind `scatter_geo` and at an unknown
kind. -/
theorem claim9_witness :
    get_plot_args 0 "scatter_geo" = none
    ∧ create_plot_comparison envOk 0 "scatter_geo" Template.default_
        = (none, some "No test data configured for scatter_geo")
    ∧ get_plot_args 0 "unknown_kind" = some []
    ∧ create_plot_comparison envOk 0 "unknown_kind" Template.default_
        = (none, some "Missing required arguments for unknown_kind") :=
  ⟨by decide,
   (claim9 envOk 0 "scatter_geo" Template.default_).2.1 (by decide),
   by decide,
   (claim9 envOk 0 "unknown_kind" Template.default_).2.2 (by decide)⟩

/-- C10: for the sentinel constructor value `"timeline"` the marker-color
probe runs on a `go.Bar` trace and returns `True`; any other non-type
constructor value makes it return `False` (the function is total: it cannot
raise). -/
theorem claim10 (s : String) :
    (s ≠ "timeline" → test_trace_supports_marker_color (Ctor.str s) = false)
    ∧ test_trace_supports_marker_color (Ctor.str "timeline") = hasMarkerColor "bar"
    ∧ test_trace_supports_marker_color (Ctor.str "timeline") = true := by
  refine ⟨?_, rfl, rfl⟩
  intro h
  unfold test_trace_supports_marker_color
  simp [h]

/-- Witness for C10 at the non-type constructor value `not_a_class`. -/
theorem claim10_witness :
    ("not_a_class" : String) ≠ "timeline"
    ∧ test_trace_supports_marker_color (Ctor.str "not_a_class") = false
    ∧ test_trace_supports_marker_color (Ctor.str "timeline") = true :=
  ⟨by decide, (claim10 "not_a_class").1 (by decide), (claim10 "not_a_class").2.2⟩

/-- C2: a plot-kind whose `args_map` entry is the explicit unavailable
marker `None` owns no section in the output report, and the run holds a
nonempty skip reason string for it (either the exclusion-set reason or
`No test data configured for ...` from `create_plot_comparison`). -/
theorem claim2 (env : Env) (r : Nat) (px_name : String) (ctor : Ctor)
    (tt : String) (hmem : (px_name, ctor, tt) ∈ PX_FUNCTIONS)
    (hnone : get_plot_args r px_name = none) :
    px_name ∉ sectionNames env r
    ∧ ∃ s, skip_reason env r (px_name, ctor, tt) = some s ∧ s ≠ "" := by
  have hcpc : create_plot_comparison env r px_name create_comprehensive_template
      = (none, some ("No test data configured for " ++ px_name)) := by
    unfold create_plot_comparison
    rw [hnone]
  constructor
  · apply not_sect_of_cpc_fst_none
    rw [hcpc]
  · rw [skip_reason_eq]
    by_cases hcu : (can_use_discrete_colors px_name ctor tt).1 = true
    · refine ⟨"No test data configured for " ++ px_name, ?_, ?_⟩
      · simp only [hcu, if_true, hcpc]
      · apply append_ne_empty_left
        decide
    · have hcu2 : (can_use_discrete_colors px_name ctor tt).1 = false := by
        simpa using hcu
      simp only [hcu2, Bool.false_eq_true, if_false]
      rcases can_use_false_reason px_name ctor tt hcu2 with hr | hr
      · exact ⟨_, hr, by decide⟩
      · exact ⟨_, hr, by decide⟩

/-- Witness for C2 at the unavailable kind `scatter_geo`. -/
theorem claim2_witness :
    ("scatter_geo", Ctor.cls "scattergeo", "scattergeo") ∈ PX_FUNCTIONS
    ∧ get_plot_args 0 "scatter_geo" = none
    ∧ ("scatter_geo" ∉ sectionNames envOk 0
        ∧ ∃ s, skip_reason envOk 0
            ("scatter_geo", Ctor.cls "scattergeo", "scattergeo") = some s ∧ s ≠ "") :=
  ⟨by decide, by decide,
   claim2 envOk 0 "scatter_geo" (Ctor.cls "scattergeo") "scattergeo"
     (by decide) (by decide)⟩

/-- C4: every section of the output report embeds both a without-template
and a with-template image, each the base64 encoding of the bytes the export
returned for the corresponding figure, and — since a successful PNG export
returns at least the PNG signature bytes — both embedded base64 strings are
nonempty. -/
theorem claim4 (env : Env) (r : Nat)
    (hpng : ∀ fig bytes, env.write_image fig = Except.ok bytes → bytes ≠ []) :
    ∀ sec ∈ report_sections env r,
      sec.img_base64_no ≠ "" ∧ sec.img_base64_with ≠ ""
      ∧ ∃ w ∈ main_works env r, ∃ b1 b2,
          env.write_image w.2.1.1 = Except.ok b1
          ∧ env.write_image w.2.1.2 = Except.ok b2
          ∧ sec.img_base64_no = b64encode b1
          ∧ sec.img_base64_with = b64encode b2 := by
  intro sec hsec
  obtain ⟨w, hw, -, -, b1, b2, h1, h2, e1, e2⟩ := mem_report_sections env r sec hsec
  refine ⟨?_, ?_, w, hw, b1, b2, h1, h2, e1, e2⟩
  · rw [e1]
    exact b64encode_ne_empty b1 (hpng _ _ h1)
  · rw [e2]
    exact b64encode_ne_empty b2 (hpng _ _ h2)

/-- Witness for C4 in the environment whose exports always return the PNG
signature bytes. -/
theorem claim4_witness :
    (∀ fig bytes, envOk.write_image fig = Except.ok bytes → bytes ≠ [])
    ∧ ∀ sec ∈ report_sections envOk 0,
        sec.img_base64_no ≠ "" ∧ sec.img_base64_with ≠ ""
        ∧ ∃ w ∈ main_works envOk 0, ∃ b1 b2,
            envOk.write_image w.2.1.1 = Except.ok b1
            ∧ envOk.write_image w.2.1.2 = Except.ok b2
            ∧ sec.img_base64_no = b64encode b1
            ∧ sec.img_base64_with = b64encode b2 := by
  have hpng : ∀ fig bytes, envOk.write_image fig = Except.ok bytes → bytes ≠ [] := by
    intro fig bytes h
    injection h with h2
    rw [← h2]
    decide
  exact ⟨hpng, claim4 envOk 0 hpng⟩

/-- C5: two runs with the same environment produce identical kept items,
identical report sections and an identical output HTML string whatever the
two draws of the random source; the one random argument (the `imshow` image
array) never reaches rendering because `imshow` is vetoed by the exclusion
set before any of its figures are built, so no kept item is named `imshow`. -/
theorem claim5 (env : Env) (r1 r2 : Nat) :
    main_works env r1 = main_works env r2
    ∧ report_sections env r1 = report_sections env r2
    ∧ generate_html_content env (main_works env r1)
        = generate_html_content env (main_works env r2)
    ∧ (main_works env r1).all (fun w => w.1 != "imshow") = true
    ∧ can_use_discrete_colors "imshow" (Ctor.cls "image") "image"
        = (false, some "Does not support discrete colors") := by
  have hmw := main_works_indep env r1 r2
  refine ⟨hmw, ?_, ?_, ?_, rfl⟩
  · unfold report_sections
    rw [hmw]
  · rw [hmw]
  · rw [List.all_eq_true]
    intro w hw
    obtain ⟨ctor, -, hcu, -⟩ := mem_main_works env r1 w hw
    rw [bne_iff_ne]
    intro hiw
    rw [hiw, can_use_imshow ctor w.2.2] at hcu
    simp at hcu

/-- C1 counterexample: in a run where every figure construction raises
`boom`, the exception for `scatter` is caught (the comparison returns it as
a reason string) and `scatter` is omitted from the report — but no console
line of the whole run contains the exception text, refuting the claim that
construction/rendering exceptions are logged to the console. -/
theorem claim1_counterexample :
    create_plot_comparison envAllBoom 0 "scatter" create_comprehensive_template
      = (none, some "boom")
    ∧ sectionNames envAllBoom 0 = []
    ∧ (main_console envAllBoom 0).all
        (fun line => !(containsSubstr "boom" line)) = true :=
  ⟨by decide, by decide, by decide⟩

/-- C1 amended: an exception during figure construction or rendering is
caught per item — the loop keeps going, the plot-kind is omitted from the
report, and the exception text survives only as the returned reason string,
never on the console; an exception during image export is caught per item,
logged to the console as a warning carrying the plot-kind and the exception
text, and the plot-kind's section is omitted; every kept item is processed
(one console line each). -/
theorem claim1_amended (env : Env) (r : Nat) (px_name : String) :
    ((create_plot_comparison env r px_name create_comprehensive_template).1
        = none →
      px_name ∉ sectionNames env r)
    ∧ (∀ (works : List Work) figs tt e, (px_name, figs, tt) ∈ works →
        (env.write_image figs.1 = Except.error e
          ∨ ((∃ b, env.write_image figs.1 = Except.ok b)
              ∧ env.write_image figs.2 = Except.error e)) →
        ("    Warning: Could not generate images for " ++ px_name ++ ": " ++ e)
          ∈ (generate_html_sections env works).2)
    ∧ (∀ item ∈ main_works env r, (render_item env item).1 = none →
        item.1 ∉ sectionNames env r)
    ∧ (generate_html_sections env (main_works env r)).2.length
        = (main_works env r).length := by
  refine ⟨not_sect_of_cpc_fst_none env r px_name, ?_, ?_, ?_⟩
  · intro works figs tt e hmem hfail
    rw [generate_html_sections]
    simp only [List.mem_map]
    refine ⟨(px_name, figs, tt), hmem, ?_⟩
    unfold render_item
    rcases hfail with h1 | ⟨⟨b, hb⟩, h2⟩
    · rw [h1]
    · rw [hb, h2]
  · exact fun item => not_sect_of_render_none env r item
  · rw [generate_html_sections]
    exact List.length_map _ _

/-- The example arguments of the `scatter` entry. -/
def scatterArgs : List (String × Value) :=
  [("data_frame", iris), ("x", Value.s "sepal_width"),
   ("y", Value.s "sepal_length"), ("color", Value.s "species")]

/-- The kept item the analysis loop produces for `scatter` when every px
call succeeds. -/
def scatterItem : Work :=
  ("scatter",
   ({ kind := "scatter", args := scatterArgs },
    { kind := "scatter",
      args := scatterArgs ++ [("template", Value.tmpl create_comprehensive_template)] }),
   "scatter")

/-- Witness for C1 amended in the environment whose exports always raise
`boom`: the skipped kind `scatter_geo` is omitted; a work item named
`scatter_geo` whose export fails gets the warning line; the kept item for
`scatter` fails its export and is omitted from the report. -/
theorem claim1_witness :
    (create_plot_comparison envExpFail 0 "scatter_geo"
        create_comprehensive_template).1 = none
    ∧ envExpFail.write_image (Fig.mk "scatter_geo" []) = Except.error "boom"
    ∧ scatterItem ∈ main_works envExpFail 0
    ∧ (render_item envExpFail scatterItem).1 = none
    ∧ ("scatter_geo" ∉ sectionNames envExpFail 0
        ∧ ("    Warning: Could not generate images for scatter_geo: boom")
            ∈ (generate_html_sections envExpFail
                [("scatter_geo",
                  (Fig.mk "scatter_geo" [], Fig.mk "scatter_geo" []),
                  "scattergeo")]).2
        ∧ "scatter" ∉ sectionNames envExpFail 0
        ∧ (generate_html_sections envExpFail (main_works envExpFail 0)).2.length
            = (main_works envExpFail 0).length) := by
  refine ⟨by decide, rfl, by decide, rfl, ?_, ?_, ?_, ?_⟩
  · exact (claim1_amended envExpFail 0 "scatter_geo").1 (by decide)
  · exact (claim1_amended envExpFail 0 "scatter_geo").2.1
      [("scatter_geo", (Fig.mk "scatter_geo" [], Fig.mk "scatter_geo" []), "scattergeo")]
      (Fig.mk "scatter_geo" [], Fig.mk "scatter_geo" []) "scattergeo" "boom"
      (by decide) (Or.inl rfl)
  · exact (claim1_amended envExpFail 0 "scatter").2.2.1 scatterItem
      (by decide) (by decide)
  · exact (claim1_amended envExpFail 0 "scatter").2.2.2

end PxDemo





